import Mathlib

/-!
Verification of the ffplayout-engine scheduler (`ffplayout.py`) against its
natural-language specification.

Shallow embedding conventions:
* Python floats are modelled as rationals (`ℚ`); the arithmetic the scheduler
  performs (additions, subtractions, comparisons) is exact in every claim.
* The configuration namespaces (`_playlist`, `_buffer`, `_pre_comp`) are a
  `Config` value; the clock (`get_time`, shifted date) and the file system
  (playlist files, `os.path.exists`, `ffprobe` output) are an `Env` value.
  `Env.now` is the value `get_time('full_sec')` returns during one pass of the
  generator, and `Env.today` the shifted civil date as an epoch-day number
  (path formatting `<root>/<YYYY>/<MM>/<date>.json` is abstracted: a playlist
  file is addressed by its date).
* ffmpeg argument vectors are modelled structurally (`SrcCmd`): each
  constructor records the parameters from which the source builds the vector.
  `SrcCmd.straight` additionally records the media duration of the file (the
  playlist's `duration` value) so that the playable span of a full-clip
  command is definable; the emitted vector itself is `['-i', file]` plus the
  mode's filters and does not depend on that field.
* Code that raises an uncaught Python exception is modelled as `Except.error`:
  `Err.jsonDecode` for `json.load` on unparseable JSON, `Err.typeErr` for
  `TypeError`s (unpacking `None` from `gen_input`, comparing `None`/bytes with
  floats — note `float(bytes)` succeeds in Python 3 but `float < bytes` raises,
  which is what the live branch of `src_or_dummy` does whenever the probed
  duration parses).
* Notifications (`mail_or_log`) are collected as `Note` values in the result.
  The `validate_thread` spawned after a successful load only produces
  notifications from a daemon thread and is not modelled.
-/

namespace FFPlayout

/-- Byte-wise list version of Python's `str.startswith` used to build
substring search. -/
def listPrefB : List Char → List Char → Bool
  | [], _ => true
  | _ :: _, [] => false
  | a :: as, b :: bs => a == b && listPrefB as bs

/-- Python's substring test `need in hay` on strings (character lists). -/
def containsSub : List Char → List Char → Bool
  | [], need => listPrefB need []
  | h :: t, need => listPrefB need (h :: t) || containsSub t need

/-- Python's `needle in haystack` for strings. -/
def strContains (hay need : String) : Bool :=
  containsSub hay.toList need.toList

/-- First component of Python's `s.split(sep)` for a non-empty separator:
the characters before the first occurrence of `sep`. -/
def splitHead (sep : List Char) : List Char → List Char
  | [] => []
  | c :: cs => if listPrefB sep (c :: cs) then [] else c :: splitHead sep cs

/-- Source expression `src.split('://')[0]` from `src_or_dummy` / `validate_thread`. -/
def preOf (src : String) : String :=
  String.mk (splitHead "://".toList src.toList)

/-- Python's `s.replace(pat, rep)` (all occurrences, left to right) for a
non-empty pattern; the source only calls it with the non-empty strings of the
`map_extension` pair. -/
def replaceSub (pat rep : List Char) : List Char → List Char
  | [] => []
  | c :: cs =>
    if pat ≠ [] ∧ listPrefB pat (c :: cs) = true then
      rep ++ replaceSub pat rep (List.drop (pat.length - 1) cs)
    else
      c :: replaceSub pat rep cs
termination_by l => l.length
decreasing_by
  · simp [List.length_drop]; omega
  · simp

/-- Python's `source.replace(ext0, ext1)` on strings. -/
def strReplace (s pat rep : String) : String :=
  String.mk (replaceSub pat.toList rep.toList s.toList)

/-- Uncaught Python exceptions of the scheduler. -/
inductive Err
  | jsonDecode
  | typeErr
  deriving DecidableEq, Repr

instance exceptDecEq {ε α : Type} [DecidableEq ε] [DecidableEq α] :
    DecidableEq (Except ε α) := fun a b =>
  match a, b with
  | .error x, .error y =>
    if h : x = y then .isTrue (by rw [h]) else .isFalse (by simp [h])
  | .ok x, .ok y =>
    if h : x = y then .isTrue (by rw [h]) else .isFalse (by simp [h])
  | .error _, .ok _ => .isFalse (by simp)
  | .ok _, .error _ => .isFalse (by simp)

/-- Messages routed to `mail_or_log`. Payloads keep the data interpolated
into the source's message strings. -/
inductive Note
  | clipNotExist (src : String)
  | notLongEnough (needed : ℚ)
  | notSync (dist : ℚ)
  | playlistNotExist (date : ℤ)
  | playlistNotValid (date : ℤ)
  deriving DecidableEq, Repr

/-- Structural model of the ffmpeg argument vectors the scheduler builds.
* `seekCut f d s o` — `seek_in_cut_end(f, d, s, o)`.
* `straight f d` — `['-i', f]` plus the mode's pad filter (full clip; `d` is
  the media duration used only to define the playable span).
* `dummy len` — `gen_dummy(len)`: in copy mode the vector is
  `['-i', blackclip]` (ignoring `len`), otherwise an `lavfi` color source of
  duration `len`. -/
inductive SrcCmd
  | seekCut (file : String) (duration seek out : ℚ)
  | straight (file : String) (duration : ℚ)
  | dummy (len : ℚ)
  deriving DecidableEq, Repr

/-- A playlist entry. `none` in a numeric field models a JSON value present
but not parseable as a float (`is_float` false); the walk substitutes
`dummy_len` / `0` for such fields. -/
structure ClipNode where
  source : String
  inp : Option ℚ
  out : Option ℚ
  duration : Option ℚ
  deriving DecidableEq, Repr

/-- A parsed playlist JSON object. `beginField = some none` models a `begin`
key whose `HH:MM:SS` parts are not all floats; `none` models an absent key.
`hasLength` records presence of the `length` key (the walk only tests
presence). A `begin` value that does not split into exactly three parts, or
a missing `program` key, raises in the source and is outside this type
(subsumed in parse failure at load time). -/
structure PlaylistJson where
  beginField : Option (Option ℚ)
  hasLength : Bool
  program : List ClipNode
  deriving DecidableEq, Repr

/-- State of a playlist file on disk. `parse = none`: the file exists but
`json.load` raises on it. -/
inductive FileState
  | missing
  | present (mtime : ℚ) (parse : Option PlaylistJson)
  deriving DecidableEq, Repr

/-- The configuration values the scheduler core reads. `protocols` is the
raw `live_protocols` string (the source tests `prefix in protocols`, a
substring test). -/
structure Config where
  day_start : ℤ
  buffer_len : ℚ
  buffer_tol : ℚ
  copy : Bool
  protocols : String
  filler : String
  blackclip : String
  map_ext : Option (String × String)

/-- External world during one pass of the generator: the (shifted) clock,
the playlist directory, local file existence, and the `ffprobe` output for
live URIs. `isFloat` is Python's `float()`-parses oracle for probe output. -/
structure Env where
  now : ℚ
  hour : ℤ
  today : ℤ
  fs : ℤ → FileState
  fileExists : String → Bool
  probe : String → String
  isFloat : String → Bool

/-- Mutable attributes of `GetSourceIter`. -/
structure SchedState where
  last_time : Option ℚ
  last_mod_time : ℚ
  clip_nodes : Option PlaylistJson
  src_cmd : Option SrcCmd
  first : Bool
  last : Bool
  list_date : ℤ
  dummy_len : ℚ
  begin : ℚ
  deriving DecidableEq, Repr

/-- Source expression `float(_playlist.start * 3600)`. -/
def dayStartSec (cfg : Config) : ℚ := (cfg.day_start : ℚ) * 3600

/-- Source expression `ref_time = day_in_sec + start` in `gen_input`. -/
def refTime (cfg : Config) : ℚ := 86400 + dayStartSec cfg

/-- Value `time` in `gen_input`: `get_time('full_sec')`, mapped past midnight
(`if 0 <= time < start: time += day_in_sec`). -/
def genTime (cfg : Config) (env : Env) : ℚ :=
  if 0 ≤ env.now ∧ env.now < dayStartSec cfg then env.now + 86400 else env.now

/-- The wrap `if 0 <= t < start*3600: t += 86400` applied to `last_time` in
`check_last_item` and `error_handling`. -/
def wrapDay (cfg : Config) (t : ℚ) : ℚ :=
  if 0 ≤ t ∧ t < dayStartSec cfg then t + 86400 else t

/-- Function `get_date(seek_day)`: yesterday's date before `day_start` when seeking
back, else today's. `Env.hour` is `get_time('hour')` of the same clock as
`Env.now` (the hour digits of `now`, i.e. `⌊now / 3600⌋` for a clock value
in `[0, 86400)`). -/
def get_date (cfg : Config) (env : Env) (seek_day : Bool) : ℤ :=
  if env.hour < cfg.day_start ∧ seek_day then env.today - 1 else env.today

/-- Python truthiness of the `dummy_len=None` default parameter
(`if dummy_len and ...`): `None` and `0.0` are falsy. -/
def pyTruthyQ : Option ℚ → Bool
  | none => false
  | some q => q != 0

/-- Source test `prefix and prefix in _pre_comp.protocols` in `src_or_dummy`. -/
def isLiveSrc (cfg : Config) (src : String) : Bool :=
  preOf src ≠ "" && strContains cfg.protocols (preOf src)

/-- Function `gen_dummy(duration)`. -/
def gen_dummy (duration : ℚ) : SrcCmd := .dummy duration

/-- Python's `'lavfi' in src_cmd` (exact element membership in the argument
vector). Only a compress-mode dummy contains the element `'lavfi'`; the only
other way the literal can occur as an element is as the file argument of
`-i` (or as the copy-mode blackclip path). -/
def hasLavfiElem (cfg : Config) : SrcCmd → Bool
  | .seekCut f _ _ _ => f == "lavfi"
  | .straight f _ => f == "lavfi"
  | .dummy _ => if cfg.copy then cfg.blackclip == "lavfi" else true

/-- Playable span of a command: `seek_in_cut_end` plays `out - seek` when it
cuts (`out < duration`) and `duration - seek` otherwise; a full clip plays
the media duration; a compress-mode dummy plays its requested length (the
copy-mode blackclip's real length is outside the model). -/
def cmdSpan : SrcCmd → ℚ
  | .seekCut _ d s o => if o < d then o - s else d - s
  | .straight _ d => d
  | .dummy len => len

/-- Function `src_or_dummy(src, duration, seek, out, dummy_len)`. The live branch:
a `404` in the probe output yields a dummy plus a notification; a parseable
duration leads the source to compare a float with the raw bytes
(`out < live_duration` or `out < duration` inside `seek_in_cut_end`), a
`TypeError`; otherwise the clip is cut against an assumed 24 h duration. -/
def src_or_dummy (cfg : Config) (env : Env) (src : String)
    (duration seek out : ℚ) (dummy_len : Option ℚ) :
    Except Err (SrcCmd × List Note) :=
  if isLiveSrc cfg src then
    if strContains (env.probe src) "404" then
      if pyTruthyQ dummy_len ∧ ¬cfg.copy then
        .ok (gen_dummy (dummy_len.getD 0), [.clipNotExist src])
      else
        .ok (gen_dummy (out - seek), [.clipNotExist src])
    else if env.isFloat (env.probe src) then
      .error .typeErr
    else
      .ok (.seekCut src 86400 0 (out - seek), [])
  else if env.fileExists src then
    if seek > 0 ∨ out < duration then
      .ok (.seekCut src duration seek out, [])
    else
      .ok (.straight src duration, [])
  else
    if pyTruthyQ dummy_len ∧ ¬cfg.copy then
      .ok (gen_dummy (dummy_len.getD 0), [.clipNotExist src])
    else
      .ok (gen_dummy (out - seek), [.clipNotExist src])

/-- Value `t_dist` in `check_sync`, including the exception for `begin == start`. -/
def syncDist (cfg : Config) (env : Env) (begin : ℚ) : ℚ :=
  if 0 ≤ env.now ∧ env.now < dayStartSec cfg ∧ begin ≠ dayStartSec cfg then
    begin - env.now - 86400
  else
    begin - env.now

/-- Function `check_sync(begin)`: the notification it sends (empty list when in
tolerance). It reads no scheduler state and returns only the message. -/
def check_sync (cfg : Config) (env : Env) (begin : ℚ) : List Note :=
  let tolerance : ℚ := if cfg.copy then 60 else cfg.buffer_tol * 4
  let t_dist := syncDist cfg env begin
  if ¬(cfg.buffer_len - tolerance < t_dist ∧
      t_dist < cfg.buffer_len + tolerance) then
    [.notSync t_dist]
  else
    []

/-- Modelled from the spec: the sync check as the claim C8 words it — the
drift `begin − now` with `now` translated into the broadcast-day frame
unconditionally (no `begin == start` exception), compared against the open
tolerance interval. -/
def check_sync_spec (cfg : Config) (env : Env) (begin : ℚ) : List Note :=
  let tolerance : ℚ := if cfg.copy then 60 else cfg.buffer_tol * 4
  let now' := if 0 ≤ env.now ∧ env.now < dayStartSec cfg then
      env.now + 86400 else env.now
  let t_dist := begin - now'
  if ¬(cfg.buffer_len - tolerance < t_dist ∧
      t_dist < cfg.buffer_len + tolerance) then
    [.notSync t_dist]
  else
    []

/-- Value `time_diff` as first computed by `gen_input`. -/
def tdOf (cfg : Config) (env : Env) (seek out : ℚ) : ℚ :=
  cfg.buffer_len + cfg.buffer_tol + out - seek + genTime cfg env

/-- The reassigned `time_diff` in the `last` branch of `gen_input`. -/
def td2Of (cfg : Config) (env : Env) (dur : ℚ) : ℚ :=
  cfg.buffer_len + cfg.buffer_tol + dur + genTime cfg env

/-- Value `new_len` in the `last` branch of `gen_input`. -/
def newLenLast (cfg : Config) (env : Env) (dur : ℚ) : ℚ :=
  dur - (td2Of cfg env dur - refTime cfg)

/-- Value `new_len` in the over-time branch of `gen_input`. -/
def newLenOver (cfg : Config) (env : Env) (seek out : ℚ) : ℚ :=
  out - seek - (tdOf cfg env seek out - refTime cfg)

/-- Result pair of `gen_input`: the command (possibly `None`), `time_left`
(`None`, or a float), and the notifications sent on the way. -/
structure GenOut where
  cmd : Option SrcCmd
  timeLeft : Option ℚ
  notes : List Note
  deriving DecidableEq, Repr

/-- Lift a `src_or_dummy` result into a `gen_input` result, attaching the
`time_left` value and any notification sent after the render call. -/
def sodMap (r : Except Err (SrcCmd × List Note)) (tl : Option ℚ)
    (extra : List Note) : Except Err (Option GenOut) :=
  match r with
  | .error e => .error e
  | .ok (c, ns) => .ok (some ⟨some c, tl, ns ++ extra⟩)

/-- Function `gen_input(src, begin, dur, seek, out, last)`. `.ok none` is the
source's implicit `return None` when no branch fires (`time_diff == ref_time`
with `last` true), which makes the caller's tuple unpacking raise. -/
def gen_input (cfg : Config) (env : Env) (src : String)
    (begin dur seek out : ℚ) (last : Bool) : Except Err (Option GenOut) :=
  let time_diff := tdOf cfg env seek out
  if (time_diff ≤ refTime cfg ∨ begin < 86400) ∧ ¬last then
    sodMap (src_or_dummy cfg env src dur seek out (some 20)) none []
  else if time_diff < refTime cfg ∧ last then
    let new_len := newLenLast cfg env dur
    if td2Of cfg env dur ≥ refTime cfg then
      if src = cfg.filler then
        sodMap (src_or_dummy cfg env src dur (dur - new_len) dur none)
          (some (new_len - dur)) []
      else
        sodMap (src_or_dummy cfg env src dur 0 new_len none)
          (some (new_len - dur)) []
    else
      sodMap (src_or_dummy cfg env src dur 0 dur none)
        (some (new_len - dur)) [.notLongEnough new_len]
  else if time_diff > refTime cfg then
    let new_len := newLenOver cfg env seek out
    if new_len > 5 then
      if src = cfg.filler then
        sodMap (src_or_dummy cfg env src dur (out - new_len) out none)
          (some 0) []
      else
        sodMap (src_or_dummy cfg env src dur seek new_len none) (some 0) []
    else if new_len > 1 then
      .ok (some ⟨some (gen_dummy new_len), some 0, []⟩)
    else
      .ok (some ⟨none, some 0, []⟩)
  else
    .ok none

/-- Function `check_last_item(src_cmd, last_time, last)`. With `src_cmd is None` and
`last` true the source falls into `'lavfi' in src_cmd` on `None`, a
`TypeError` (unreachable in practice since `self.last` is never set true). -/
def check_last_item (cfg : Config) (env : Env) (src_cmd : Option SrcCmd)
    (last_time : Option ℚ) (last : Bool) : Except Err (Bool × Option ℚ) :=
  match src_cmd with
  | none =>
    if ¬last then
      .ok (true, some (wrapDay cfg env.now))
    else
      .error .typeErr
  | some c =>
    if hasLavfiElem cfg c ∧ ¬last then
      .ok (true, some (wrapDay cfg (env.now + cfg.buffer_len + cfg.buffer_tol)))
    else
      .ok (false, last_time)

/-- Method `GetSourceIter.error_handling(message)`: substitute a dummy of the
current `dummy_len`, set the recovery state, notify, and reset
`last`, `dummy_len`, `last_mod_time` (and leave `clip_nodes` untouched). -/
def error_handling (cfg : Config) (env : Env) (note : Note)
    (s : SchedState) : SchedState × List Note :=
  let src_cmd := some (gen_dummy s.dummy_len)
  let common := fun (s' : SchedState) =>
    { s' with
      begin := env.now + cfg.buffer_len + cfg.buffer_tol
      last := false
      dummy_len := 60
      last_mod_time := 0 }
  if s.last then
    (common { s with
        src_cmd
        last_time := some (dayStartSec cfg - 5)
        first := false }, [note])
  else
    (common { s with
        src_cmd
        last_time :=
          some (wrapDay cfg
            (env.now + s.dummy_len + cfg.buffer_len + cfg.buffer_tol))
        first := true }, [note])

/-- Method `GetSourceIter.get_playlist()`: reload the playlist of `list_date` when
its mtime moved past `last_mod_time` (an unparseable file makes `json.load`
raise); keep the cached nodes otherwise; call `error_handling` when the file
is missing. -/
def get_playlist (cfg : Config) (env : Env) (s : SchedState) :
    Except Err (SchedState × List Note) :=
  match env.fs s.list_date with
  | .present mtime parse =>
    if mtime > s.last_mod_time then
      match parse with
      | none => .error .jsonDecode
      | some nodes =>
        .ok ({ s with clip_nodes := some nodes, last_mod_time := mtime }, [])
    else
      .ok ({ s with last_mod_time := mtime }, [])
  | .missing =>
    .ok (error_handling cfg env (.playlistNotExist s.list_date) s)

/-- Value `src` for a node after the optional `map_extension` replacement. -/
def srcOf (cfg : Config) (n : ClipNode) : String :=
  match cfg.map_ext with
  | some (a, b) => strReplace n.source a b
  | none => n.source

/-- Source expression `seek = node["in"] if is_float(node["in"]) else 0`. -/
def seekOf (n : ClipNode) : ℚ := n.inp.getD 0

/-- Source expression `out = node["out"] if is_float(node["out"]) else self.dummy_len`. -/
def outOf (n : ClipNode) (dl : ℚ) : ℚ := n.out.getD dl

/-- Value `duration`, defaulting to `dummy_len` like `out`. -/
def durOf (n : ClipNode) (dl : ℚ) : ℚ := n.duration.getD dl

/-- Python truthiness of `self.last_time` in
`self.last_time and self.last_time < self.begin`. -/
def lastTimeTruthy : Option ℚ → Bool
  | none => false
  | some q => q != 0

/-- Outcome of the `for node in program` loop: `broke` after a `break`
(seek/normal branch fired), `through` when every node only advanced
`begin` (the `for`-`else` runs next). -/
inductive WalkRes
  | broke (s : SchedState) (notes : List Note)
  | through (s : SchedState)
  deriving DecidableEq, Repr

/-- The body of `for index, node in enumerate(self.clip_nodes["program"])`.
`lastN` is `program[-1]`. The resync branch compares
`self.last_time < self.begin + duration` (a `TypeError` were `last_time`
still `None`, which no reachable state produces), seeks by
`last_time - begin + in`, and breaks; the normal branch tags the node as
last by value equality with `program[-1]`, runs `check_sync`, calls
`gen_input`, and updates the rollover state from `time_left`; otherwise
`begin += out - seek`. -/
def walkNodes (cfg : Config) (env : Env) (lastN : Option ClipNode) :
    List ClipNode → SchedState → Except Err WalkRes
  | [], s => .ok (.through s)
  | node :: rest, s =>
    let src := srcOf cfg node
    let seek := seekOf node
    let out := outOf node s.dummy_len
    let duration := durOf node s.dummy_len
    let condA : Except Err Bool :=
      if s.first then
        match s.last_time with
        | none => .error .typeErr
        | some lt => .ok (decide (lt < s.begin + duration))
      else
        .ok false
    match condA with
    | .error e => .error e
    | .ok true =>
      match s.last_time with
      | none => .error .typeErr
      | some lt =>
        match gen_input cfg env src s.begin duration
            (lt - s.begin + seek) out false with
        | .error e => .error e
        | .ok none => .error .typeErr
        | .ok (some g) =>
          .ok (.broke { s with
            src_cmd := g.cmd
            first := false
            last_time := some s.begin } g.notes)
    | .ok false =>
      if lastTimeTruthy s.last_time ∧ s.last_time.getD 0 < s.begin then
        let last := decide (some node = lastN)
        let syncNotes := check_sync cfg env s.begin
        match gen_input cfg env src s.begin duration seek out last with
        | .error e => .error e
        | .ok none => .error .typeErr
        | .ok (some g) =>
          match g.timeLeft with
          | none =>
            .ok (.broke { s with
              src_cmd := g.cmd
              last_time := some s.begin } (syncNotes ++ g.notes))
          | some tl =>
            if tl > 0 then
              .ok (.broke { s with
                src_cmd := g.cmd
                list_date := get_date cfg env false
                last_time := some s.begin
                dummy_len := tl } (syncNotes ++ g.notes))
            else
              .ok (.broke { s with
                src_cmd := g.cmd
                list_date := get_date cfg env false
                last_time := some (dayStartSec cfg - 5)
                last_mod_time := 0 } (syncNotes ++ g.notes))
      else
        walkNodes cfg env lastN rest { s with begin := s.begin + (out - seek) }

/-- What one iteration of the generator's `while True` loop does: yield a
command (the value of `self.src_cmd`, which the `clip_nodes is None` path
yields even when it is `None`), continue without yielding (a branch left
`src_cmd` as `None`), or end the generator (`Playlist reach End!`). -/
inductive PassOut
  | yields (cmd : Option SrcCmd) (s : SchedState) (notes : List Note)
  | silent (s : SchedState) (notes : List Note)
  | ended (notes : List Note)
  deriving DecidableEq, Repr

/-- One pass of `GetSourceIter.next()`: load/refresh the playlist, yield the
standing command when no playlist was ever parsed, recompute the resync pair
via `check_last_item`, anchor `begin` (declared `begin`, else `last_time`,
else `now`), walk the nodes, and run the `for`-`else` end/invalid logic. -/
def nextPass (cfg : Config) (env : Env) (s : SchedState) :
    Except Err PassOut :=
  match get_playlist cfg env s with
  | .error e => .error e
  | .ok (s1, n1) =>
    match s1.clip_nodes with
    | none => .ok (.yields s1.src_cmd s1 n1)
    | some pl =>
      match check_last_item cfg env s1.src_cmd s1.last_time s1.last with
      | .error e => .error e
      | .ok (f, lt) =>
        let s2 := { s1 with first := f, last_time := lt }
        let beginRes : Except Err ℚ :=
          match pl.beginField with
          | some (some q) => .ok q
          | some none =>
            -- `self.begin = self.last_time`: with `last_time` still `None`
            -- every later use of `begin` raises; modelled as the error here.
            match s2.last_time with
            | some q => .ok q
            | none => .error .typeErr
          | none => .ok env.now
        match beginRes with
        | .error e => .error e
        | .ok b =>
          match walkNodes cfg env pl.program.getLast? pl.program
              { s2 with begin := b } with
          | .error e => .error e
          | .ok (.broke s4 ns) =>
            match s4.src_cmd with
            | some _ => .ok (.yields s4.src_cmd s4 (n1 ++ ns))
            | none => .ok (.silent s4 (n1 ++ ns))
          | .ok (.through s4) =>
            if pl.beginField = none ∨ (¬pl.hasLength ∧ s4.begin < env.now) then
              .ok (.ended n1)
            else
              let (s5, ns) :=
                error_handling cfg env (.playlistNotValid s4.list_date) s4
              .ok (.yields s5.src_cmd s5 (n1 ++ ns))

/-- Constructor `GetSourceIter.__init__` (the construction moment shares the pass's
clock). -/
def initState (cfg : Config) (env : Env) : SchedState where
  last_time := none
  last_mod_time := 0
  clip_nodes := none
  src_cmd := none
  first := true
  last := false
  list_date := get_date cfg env true
  dummy_len := 60
  begin := 0

/-- Command yielded by a pass, when it yields. -/
def passCmdOf : Except Err PassOut → Option (Option SrcCmd)
  | .ok (.yields c _ _) => some c
  | _ => none

/-- Field `last_mod_time` of the state after a pass that yields or stays silent. -/
def passLmtOf : Except Err PassOut → Option ℚ
  | .ok (.yields _ s _) => some s.last_mod_time
  | .ok (.silent s _) => some s.last_mod_time
  | _ => none

/-- Field `list_date` of the state after a pass that yields or stays silent. -/
def passDateOf : Except Err PassOut → Option ℤ
  | .ok (.yields _ s _) => some s.list_date
  | .ok (.silent s _) => some s.list_date
  | _ => none

/-! ### Concrete fixtures (configurations, environments, playlists) -/

/-- A compress-mode configuration: `day_start = 6`, `buffer_length = 60`,
`buffer_tolerance = 10`. -/
def cfgMain : Config :=
  { day_start := 6
    buffer_len := 60
    buffer_tol := 10
    copy := false
    protocols := "rtmp,rtsp,http"
    filler := "filler.mp4"
    blackclip := "black.mp4"
    map_ext := none }

/-- The same configuration in copy mode. -/
def cfgCopy : Config := { cfgMain with copy := true }

/-- A neutral environment: clock at `22000` s of day (06:06:40), nothing on
disk, no live probes. -/
def envBase : Env :=
  { now := 22000
    hour := 6
    today := 11
    fs := fun _ => .missing
    fileExists := fun _ => false
    probe := fun _ => ""
    isFloat := fun _ => false }

/-- Environment whose playlist file for every date exists but is not
parseable JSON. -/
def envBadJson : Env := { envBase with fs := fun _ => .present 1 none }

/-- Clock at `50000` s of day (13:53:20). -/
def envMid : Env := { envBase with now := 50000, hour := 13 }

/-- Clock at `13600` s of day (03:46:40, after midnight): the frame-mapped
time is `100000`, so `8000` s remain until `ref = 108000`. -/
def envLate : Env := { envBase with now := 13600, hour := 3 }

/-- Clock at `20600` s of day (05:43:20, after midnight, before
`day_start`): the frame-mapped time is `107000` and only `1000` s remain
until `ref`; `x.mp4` exists. -/
def envOver : Env :=
  { envBase with now := 20600, hour := 5, fileExists := fun f => f == "x.mp4" }

/-- Clock at `30000` s of day (08:20); no files exist. -/
def envGone : Env := { envBase with now := 30000, hour := 8 }

/-- Clock at `21540` s of day (05:59, before `day_start`). -/
def envPreStart : Env := { envBase with now := 21540, hour := 5 }

/-! ### C1 — gap-freeness of the generator pass -/

/-- Claim C1 counterexample: with the playlist file for `list_date` present
but unparseable JSON (and its mtime ahead of `last_mod_time`), the pass does
not yield a dummy — `json.load` raises and the exception propagates out of
the generator, contrary to the claim that the generator never raises. -/
theorem C1_malformed_json_raises :
    nextPass cfgMain envBadJson (initState cfgMain envBadJson) =
      .error .jsonDecode := by
  norm_num [nextPass, get_playlist, initState, get_date, envBadJson, envBase,
    cfgMain]

/-- Claim C1, amended: when the playlist file for `list_date` is missing and
no playlist has ever been parsed (`clip_nodes` is `None`), the pass yields a
dummy of length `dummy_len` together with a "Playlist not exist"
notification and raises nothing; but a present, unparseable playlist file
makes the generator raise (see the counterexample). -/
theorem C1_missing_playlist_dummy (cfg : Config) (env : Env) (s : SchedState)
    (hmiss : env.fs s.list_date = .missing) (hcn : s.clip_nodes = none) :
    ∃ s', nextPass cfg env s =
      .ok (.yields (some (gen_dummy s.dummy_len)) s'
        [.playlistNotExist s.list_date]) := by
  refine ⟨(error_handling cfg env (.playlistNotExist s.list_date) s).1, ?_⟩
  unfold nextPass get_playlist
  rw [hmiss]
  unfold error_handling
  cases hl : s.last <;> simp [hl, hcn]

/-- Witness for C1 at a concrete startup state. -/
theorem C1_missing_playlist_dummy_witness :
    envBase.fs (initState cfgMain envBase).list_date = .missing ∧
    (initState cfgMain envBase).clip_nodes = none ∧
    ∃ s', nextPass cfgMain envBase (initState cfgMain envBase) =
      .ok (.yields (some (gen_dummy (initState cfgMain envBase).dummy_len)) s'
        [.playlistNotExist (initState cfgMain envBase).list_date]) :=
  ⟨by decide, by decide,
    C1_missing_playlist_dummy cfgMain envBase (initState cfgMain envBase)
      (by decide) (by decide)⟩

/-! ### C2 — `check_last_item` recovery timestamp and resync seek -/

/-- Claim C2 counterexample: after a (compress-mode) dummy emission with
`dummy_len = 60`, `check_last_item` sets
`last_time = now + buffer_length + buffer_tolerance = 50070`, not the
claimed `now + dummy_len + buffer_length + buffer_tolerance = 50130`:
`dummy_len` is never added. -/
theorem C2_counterexample :
    check_last_item cfgMain envMid (some (SrcCmd.dummy 60)) (some 0) false =
      .ok (true, some 50070) ∧
    (50070 : ℚ) ≠ 50000 + 60 + 60 + 10 := by
  norm_num [check_last_item, hasLavfiElem, wrapDay, dayStartSec, envMid,
    envBase, cfgMain]

/-- Claim C2, amended: when the previous emission was a dummy (its vector
contains `'lavfi'`) and `last` is false, `check_last_item` sets
`first := true` and `last_time := now + buffer_length + buffer_tolerance`
(wrapped into the broadcast-day frame) — without adding `dummy_len`; and the
resync branch of the node walk then seeks by `last_time − begin + in`, so
the next emission's effective seek is
`(t' + buffer_length + buffer_tolerance) − begin_of_clip + in` where `t'` is
the clock at the pass after the dummy (not `t + d`). -/
theorem C2_last_time_and_resync (cfg : Config) (env : Env) (cmd : SrcCmd)
    (lt0 : Option ℚ) (node : ClipNode) (rest : List ClipNode)
    (lastN : Option ClipNode) (s : SchedState) (ltq : ℚ)
    (hlavfi : hasLavfiElem cfg cmd = true)
    (hf : s.first = true) (hlt : s.last_time = some ltq)
    (hcond : ltq < s.begin + durOf node s.dummy_len) :
    check_last_item cfg env (some cmd) lt0 false =
      .ok (true, some (wrapDay cfg
        (env.now + cfg.buffer_len + cfg.buffer_tol))) ∧
    walkNodes cfg env lastN (node :: rest) s =
      (match gen_input cfg env (srcOf cfg node) s.begin
          (durOf node s.dummy_len) (ltq - s.begin + seekOf node)
          (outOf node s.dummy_len) false with
       | .error e => .error e
       | .ok none => .error Err.typeErr
       | .ok (some g) => .ok (.broke { s with
           src_cmd := g.cmd
           first := false
           last_time := some s.begin } g.notes)) := by
  constructor
  · simp [check_last_item, hlavfi]
  · unfold walkNodes
    simp [hf, hlt, hcond]

/-- Witness for C2 at concrete inputs: the dummy previously emitted at some
pass makes `last_time = 50070`, and a walk whose state carries
`last_time = 21605` over a clip anchored at `begin = 21600` seeks by 5. -/
theorem C2_last_time_and_resync_witness :
    (check_last_item cfgMain envMid (some (SrcCmd.dummy 60)) (some 0) false =
      .ok (true, some (wrapDay cfgMain
        (envMid.now + cfgMain.buffer_len + cfgMain.buffer_tol))) ∧
    walkNodes cfgMain envMid (some ⟨"a.mp4", some 0, some 3600, some 3600⟩)
        [⟨"a.mp4", some 0, some 3600, some 3600⟩]
        { last_time := some 21605, last_mod_time := 1, clip_nodes := none
          src_cmd := some (SrcCmd.dummy 60), first := true, last := false
          list_date := 11, dummy_len := 60, begin := 21600 } =
      (match gen_input cfgMain envMid "a.mp4" 21600 3600 (21605 - 21600 + 0)
          3600 false with
       | .error e => .error e
       | .ok none => .error Err.typeErr
       | .ok (some g) => .ok (.broke
           { last_time := some 21600, last_mod_time := 1, clip_nodes := none
             src_cmd := g.cmd, first := false, last := false
             list_date := 11, dummy_len := 60, begin := 21600 } g.notes))) :=
  C2_last_time_and_resync cfgMain envMid (SrcCmd.dummy 60) (some 0)
    ⟨"a.mp4", some 0, some 3600, some 3600⟩ []
    (some ⟨"a.mp4", some 0, some 3600, some 3600⟩)
    { last_time := some 21605, last_mod_time := 1, clip_nodes := none
      src_cmd := some (SrcCmd.dummy 60), first := true, last := false
      list_date := 11, dummy_len := 60, begin := 21600 } 21605
    (by decide) rfl rfl (by norm_num [durOf])

/-! ### C6 — day rollover -/

/-- A playlist for the C6 trace: `begin = 06:00:00`, one 10 s node. -/
def plC6 : PlaylistJson :=
  { beginField := some (some 21600)
    hasLength := true
    program := [⟨"x.mp4", some 0, some 10, some 10⟩] }

/-- C6 environment: clock 22000 s on day 11; day 10's playlist file exists
with mtime 5; `x.mp4` exists. -/
def envC6 : Env :=
  { envBase with
    fs := fun d => if d = 10 then .present 5 (some plC6) else .missing
    fileExists := fun f => f == "x.mp4" }

/-- A mid-stream scheduler state on day 10, after day 10's playlist (mtime
5) was loaded and `check_last_item` ran on a full-clip previous emission:
recovery time 100 s, playhead anchored at the playlist's `begin`. -/
def stC6b : SchedState :=
  { last_time := some 100
    last_mod_time := 5
    clip_nodes := some plC6
    src_cmd := some (.straight "y.mp4" 1)
    first := false
    last := false
    list_date := 10
    dummy_len := 60
    begin := 21600 }

/-- The state after the rollover walk: `list_date` advanced to day 11,
`dummy_len` holds the positive `time_left` — and `last_mod_time` still 5. -/
def stC6c : SchedState :=
  { stC6b with
    src_cmd := some (.straight "x.mp4" 10)
    list_date := 11
    last_time := some 21600
    dummy_len := 85920 }

/-- Claim C6 counterexample: the walk over day 10's playlist reaches its
final clip, `gen_input` returns positive `time_left = 85920` (the playlist
is far too short), and `list_date` advances to day 11 — but
`last_mod_time` keeps the value 5 read from the old playlist file instead
of being cleared to 0: in the positive `time_left` case the source does
not reset it, so the new day's playlist is reparsed only if its mtime
exceeds 5. -/
theorem C6_counterexample :
    walkNodes cfgMain envC6 (some ⟨"x.mp4", some 0, some 10, some 10⟩)
      [⟨"x.mp4", some 0, some 10, some 10⟩] stC6b =
      .ok (.broke stC6c [Note.notSync (-400), Note.notLongEnough 85930]) ∧
    stC6c.list_date = 11 ∧ (11 : ℤ) ≠ 10 ∧
    stC6c.last_mod_time = 5 ∧ (5 : ℚ) ≠ 0 := by
  have hgen : gen_input cfgMain envC6 "x.mp4" 21600 10 0 10 true =
      .ok (some ⟨some (.straight "x.mp4" 10), some 85920,
        [.notLongEnough 85930]⟩) := by
    norm_num [gen_input, src_or_dummy, sodMap, tdOf, td2Of, newLenLast,
      newLenOver, genTime, refTime, dayStartSec, envC6, envBase, cfgMain]
    rfl
  have hsync : check_sync cfgMain envC6 21600 = [Note.notSync (-400)] := by
    norm_num [check_sync, syncDist, dayStartSec, envC6, envBase, cfgMain]
  have hdate : get_date cfgMain envC6 false = 11 := by
    norm_num [get_date, envC6, envBase]
  have hsrc : srcOf cfgMain ⟨"x.mp4", some 0, some 10, some 10⟩ =
      "x.mp4" := by
    decide
  refine ⟨?_, rfl, by norm_num, rfl, by norm_num⟩
  unfold walkNodes
  norm_num [stC6b, stC6c, seekOf, outOf, durOf, lastTimeTruthy,
    bne_iff_ne, hsrc, hsync, hgen, hdate]

/-- Claim C6, amended: when `gen_input` returns `time_left`, the normal
branch of the walk advances `list_date` to `get_date(False)` (the current
civil date) in both the positive and the zero case; but only the
non-positive case resets `last_time` to `day_start·3600 − 5` and clears
`last_mod_time` to 0 — with positive `time_left` the source sets
`dummy_len := time_left`, `last_time := begin`, and leaves `last_mod_time`
unchanged, so the next day's playlist is reread only if its mtime exceeds
the old file's. -/
theorem C6_rollover (cfg : Config) (env : Env) (lastN : Option ClipNode)
    (node : ClipNode) (rest : List ClipNode) (s : SchedState) (ltq : ℚ)
    (g : GenOut) (tl : ℚ)
    (hf : s.first = false) (hlt : s.last_time = some ltq) (hne : ltq ≠ 0)
    (hlb : ltq < s.begin)
    (hg : gen_input cfg env (srcOf cfg node) s.begin
      (durOf node s.dummy_len) (seekOf node) (outOf node s.dummy_len)
      (decide (some node = lastN)) = .ok (some g))
    (htl : g.timeLeft = some tl) :
    ∃ s₂ notes, walkNodes cfg env lastN (node :: rest) s =
        .ok (.broke s₂ notes) ∧
      s₂.list_date = get_date cfg env false ∧
      s₂.src_cmd = g.cmd ∧
      (0 < tl → s₂.dummy_len = tl ∧ s₂.last_time = some s.begin ∧
        s₂.last_mod_time = s.last_mod_time) ∧
      (tl ≤ 0 → s₂.last_time = some (dayStartSec cfg - 5) ∧
        s₂.last_mod_time = 0) := by
  by_cases hpos : tl > 0
  · refine ⟨{ s with
        src_cmd := g.cmd
        list_date := get_date cfg env false
        last_time := some s.begin
        dummy_len := tl }, check_sync cfg env s.begin ++ g.notes,
      ?_, rfl, rfl, fun _ => ⟨rfl, rfl, rfl⟩, fun h => absurd hpos (by linarith)⟩
    unfold walkNodes
    rw [hlt]
    simp only [hf, lastTimeTruthy, Option.getD_some, hg, htl,
      Bool.false_eq_true, if_false]
    rw [if_pos ⟨by simp [hne], hlb⟩, if_pos hpos]
  · refine ⟨{ s with
        src_cmd := g.cmd
        list_date := get_date cfg env false
        last_time := some (dayStartSec cfg - 5)
        last_mod_time := 0 }, check_sync cfg env s.begin ++ g.notes,
      ?_, rfl, rfl, fun h => absurd h hpos, fun _ => ⟨rfl, rfl⟩⟩
    unfold walkNodes
    rw [hlt]
    simp only [hf, lastTimeTruthy, Option.getD_some, hg, htl,
      Bool.false_eq_true, if_false]
    rw [if_pos ⟨by simp [hne], hlb⟩, if_neg hpos]

/-- Witness for C6 at the concrete day-10 state: positive
`time_left = 85920` advances `list_date` while keeping `last_mod_time`. -/
theorem C6_rollover_witness :
    (85920 : ℚ) > 0 ∧
    (∃ s₂ notes, walkNodes cfgMain envC6
        (some ⟨"x.mp4", some 0, some 10, some 10⟩)
        [⟨"x.mp4", some 0, some 10, some 10⟩]
        stC6b =
        .ok (.broke s₂ notes) ∧
      s₂.list_date = get_date cfgMain envC6 false ∧
      s₂.src_cmd = some (SrcCmd.straight "x.mp4" 10) ∧
      ((0:ℚ) < 85920 → s₂.dummy_len = 85920 ∧ s₂.last_time = some 21600 ∧
        s₂.last_mod_time = stC6b.last_mod_time) ∧
      ((85920:ℚ) ≤ 0 → s₂.last_time = some (dayStartSec cfgMain - 5) ∧
        s₂.last_mod_time = 0)) := by
  have hg : gen_input cfgMain envC6
      (srcOf cfgMain ⟨"x.mp4", some 0, some 10, some 10⟩) 21600 10 0 10
      (decide (some (⟨"x.mp4", some 0, some 10, some 10⟩ : ClipNode) =
        some ⟨"x.mp4", some 0, some 10, some 10⟩)) =
      .ok (some ⟨some (.straight "x.mp4" 10), some 85920,
        [.notLongEnough 85930]⟩) := by
    norm_num [gen_input, src_or_dummy, sodMap, srcOf, tdOf, td2Of,
      newLenLast, newLenOver, genTime, refTime, dayStartSec, envC6, envBase,
      cfgMain]
    rfl
  exact ⟨by norm_num,
    C6_rollover cfgMain envC6 (some ⟨"x.mp4", some 0, some 10, some 10⟩)
      ⟨"x.mp4", some 0, some 10, some 10⟩ [] stC6b 100
      ⟨some (.straight "x.mp4" 10), some 85920, [.notLongEnough 85930]⟩
      85920 rfl rfl (by norm_num) (by norm_num [stC6b]) hg rfl⟩

/-! ### C7 — missing-file substitution -/

/-- Claim C7 counterexample: scheduling the node
`{source: "gone.mp4", in: 0, out: 10, duration: 10}` with the file absent
goes through `gen_input`'s in-range branch, which passes `dummy_len = 20` to
`src_or_dummy`; in compress mode the emitted dummy therefore has length 20,
not the claimed `out − seek = 10`. -/
theorem C7_counterexample :
    gen_input cfgMain envGone "gone.mp4" 21600 10 0 10 false =
      .ok (some ⟨some (SrcCmd.dummy 20), none, [.clipNotExist "gone.mp4"]⟩) ∧
    SrcCmd.dummy 20 ≠ SrcCmd.dummy (10 - 0) := by
  constructor
  · norm_num [gen_input, src_or_dummy, sodMap, gen_dummy, pyTruthyQ, tdOf,
      genTime, refTime, dayStartSec, envGone, envBase, cfgMain]
    rfl
  · norm_num

/-- Claim C7, amended: a scheduled node whose source file does not exist
(and is not live) yields exactly one dummy plus a `Clip not exist`
notification, but in compress mode the dummy's length is the constant 20
that `gen_input` passes as `dummy_len` — not `out − seek`; only in copy
mode is the (ignored) dummy length argument `out − seek`, the vector being
the configured blackclip. -/
theorem C7_missing_clip_dummy (cfg : Config) (env : Env) (src : String)
    (begin dur seek out : ℚ)
    (hlive : isLiveSrc cfg src = false) (hex : env.fileExists src = false)
    (hb : tdOf cfg env seek out ≤ refTime cfg ∨ begin < 86400) :
    (cfg.copy = false → gen_input cfg env src begin dur seek out false =
      .ok (some ⟨some (SrcCmd.dummy 20), none, [.clipNotExist src]⟩)) ∧
    (cfg.copy = true → gen_input cfg env src begin dur seek out false =
      .ok (some ⟨some (SrcCmd.dummy (out - seek)), none,
        [.clipNotExist src]⟩)) := by
  rcases hb with hb | hb <;>
    constructor <;> intro hc <;>
      norm_num [gen_input, src_or_dummy, sodMap, gen_dummy, pyTruthyQ,
        hlive, hex, hb, hc]

/-- Witness for C7 at the S3 node in both modes. -/
theorem C7_missing_clip_dummy_witness :
    isLiveSrc cfgMain "gone.mp4" = false ∧
    envGone.fileExists "gone.mp4" = false ∧
    (cfgMain.copy = false →
      gen_input cfgMain envGone "gone.mp4" 21600 10 0 10 false =
        .ok (some ⟨some (SrcCmd.dummy 20), none,
          [.clipNotExist "gone.mp4"]⟩)) ∧
    (cfgMain.copy = true →
      gen_input cfgMain envGone "gone.mp4" 21600 10 0 10 false =
        .ok (some ⟨some (SrcCmd.dummy (10 - 0)), none,
          [.clipNotExist "gone.mp4"]⟩)) :=
  ⟨by decide, by decide,
    (C7_missing_clip_dummy cfgMain envGone "gone.mp4" 21600 10 0 10
      (by decide) (by decide) (by norm_num [tdOf, genTime, refTime,
        dayStartSec, envGone, envBase, cfgMain])).1,
    (C7_missing_clip_dummy cfgMain envGone "gone.mp4" 21600 10 0 10
      (by decide) (by decide) (by norm_num [tdOf, genTime, refTime,
        dayStartSec, envGone, envBase, cfgMain])).2⟩

/-! ### C8 — the sync check -/

/-- Claim C8 counterexample: in copy mode with `begin = day_start·3600`
and the clock just before `day_start`, the source skips the day-frame
translation (the `not begin == start` guard) and stays silent, while the
claim's unconditional translation would flag a drift of `−86340`. -/
theorem C8_counterexample :
    check_sync cfgCopy envPreStart 21600 = [] ∧
    check_sync_spec cfgCopy envPreStart 21600 = [.notSync (-86340)] := by
  constructor <;>
    norm_num [check_sync, check_sync_spec, syncDist, dayStartSec,
      envPreStart, envBase, cfgCopy, cfgMain]

/-- Claim C8, amended: `check_sync` notifies exactly when the drift —
`begin − now` with `now` translated into the broadcast-day frame, *except*
that no translation happens when `begin` equals `day_start·3600` — falls
outside the open tolerance interval around `buffer_length` (tolerance 60 in
copy mode, `buffer_tolerance × 4` otherwise). Away from that exceptional
`begin` the code agrees with the claim's description; being a pure
predicate on `(begin, now)` it alters no scheduler state by construction. -/
theorem C8_sync_agrees_off_day_start (cfg : Config) (env : Env) (b : ℚ)
    (hb : b ≠ dayStartSec cfg) :
    check_sync cfg env b = check_sync_spec cfg env b := by
  have hd : syncDist cfg env b =
      b - (if 0 ≤ env.now ∧ env.now < dayStartSec cfg then env.now + 86400
        else env.now) := by
    unfold syncDist
    split_ifs with h1 h2 h2
    · ring
    · exact absurd ⟨h1.1, h1.2.1⟩ h2
    · exact absurd h1 (by tauto)
    · rfl
  simp only [check_sync, check_sync_spec, hd]

/-- Witness for C8 at a concrete drift. -/
theorem C8_sync_agrees_off_day_start_witness :
    (100 : ℚ) ≠ dayStartSec cfgMain ∧
    check_sync cfgMain envPreStart 100 = check_sync_spec cfgMain envPreStart 100 :=
  ⟨by norm_num [dayStartSec, cfgMain],
    C8_sync_agrees_off_day_start cfgMain envPreStart 100
      (by norm_num [dayStartSec, cfgMain])⟩

/-! ### C3 — the truncation cap -/

/-- Behaviour of `src_or_dummy` on an existing, non-live local file: seek/cut when there
is a positive seek or an early out-point, a full pass-through otherwise. -/
theorem src_or_dummy_exists_eq (cfg : Config) (env : Env) (src : String)
    (duration seek out : ℚ) (dl : Option ℚ)
    (hlive : isLiveSrc cfg src = false) (hex : env.fileExists src = true) :
    src_or_dummy cfg env src duration seek out dl =
      if seek > 0 ∨ out < duration then
        .ok (.seekCut src duration seek out, [])
      else
        .ok (.straight src duration, []) := by
  simp [src_or_dummy, hlive, hex]

/-- Claim C3 counterexample: a non-final clip anchored before midnight
(`begin = 80000 < 86400`) is rendered in full by `gen_input`'s first branch
even though `time_diff > ref`: the emitted span 3600 exceeds the remaining
1000 s until `ref`, refuting both the general cap and the claimed
"no full-length clip when `time_diff > ref`". -/
theorem C3_counterexample :
    gen_input cfgMain envOver "x.mp4" 80000 3600 0 3600 false =
      .ok (some ⟨some (SrcCmd.straight "x.mp4" 3600), none, []⟩) ∧
    refTime cfgMain - genTime cfgMain envOver = 1000 ∧
    ¬(cmdSpan (SrcCmd.straight "x.mp4" 3600) ≤
        refTime cfgMain - genTime cfgMain envOver) ∧
    refTime cfgMain < tdOf cfgMain envOver 0 3600 := by
  refine ⟨?_, ?_, ?_, ?_⟩
  · norm_num [gen_input, src_or_dummy, sodMap, tdOf, genTime, refTime,
      dayStartSec, envOver, envBase, cfgMain]
    rfl
  · norm_num [refTime, genTime, dayStartSec, envOver, envBase, cfgMain]
  · norm_num [cmdSpan, refTime, genTime, dayStartSec, envOver, envBase,
      cfgMain]
  · norm_num [tdOf, refTime, genTime, dayStartSec, envOver, envBase, cfgMain]

/-- Claim C3, amended: the playable span of a command emitted by
`gen_input` for an existing, non-live source never exceeds the remaining
time `ref − now` (with `now` frame-mapped), *except* through the first
branch's `begin < 86400` escape: under the hypothesis that the clip is
final, or anchored at/after midnight, or still inside the day range
(`time_diff ≤ ref`), the cap holds. (A missing source can also break the
cap: the substituted dummy of length 20 is not bounded by the remaining
time — see C7.) -/
theorem C3_truncation_cap (cfg : Config) (env : Env) (src : String)
    (begin dur seek out : ℚ) (last : Bool) (g : GenOut) (c : SrcCmd)
    (hbl : 0 ≤ cfg.buffer_len) (hbt : 0 ≤ cfg.buffer_tol) (hs : 0 ≤ seek)
    (hlive : isLiveSrc cfg src = false) (hex : env.fileExists src = true)
    (hcase : last = true ∨ 86400 ≤ begin ∨
      tdOf cfg env seek out ≤ refTime cfg)
    (hg : gen_input cfg env src begin dur seek out last = .ok (some g))
    (hc : g.cmd = some c) :
    cmdSpan c ≤ refTime cfg - genTime cfg env := by
  have hsod : ∀ (d a b : ℚ) (dl : Option ℚ),
      src_or_dummy cfg env src d a b dl =
        if a > 0 ∨ b < d then .ok (.seekCut src d a b, [])
        else .ok (.straight src d, []) :=
    fun d a b dl => src_or_dummy_exists_eq cfg env src d a b dl hlive hex
  set R := refTime cfg with hR
  set T := genTime cfg env with hT
  simp only [tdOf, ← hT] at hcase
  simp only [gen_input, tdOf, td2Of, newLenLast, newLenOver, hsod, ← hR,
    ← hT] at hg
  split_ifs at hg with h1 h2 h3 h4 h5 h6 h7 h8 h9 h10 h11 h12 <;>
    simp only [sodMap, gen_dummy, Except.ok.injEq, Option.some.injEq] at hg <;>
    first
    | exact Option.noConfusion hg
    | (subst hg
       simp only [Option.some.injEq] at hc
       first
       | exact Option.noConfusion hc
       | (subst hc
          simp only [cmdSpan]
          push_neg at *
          (try casesm* _ ∧ _)
          (try split_ifs) <;>
            (try casesm* _ ∨ _) <;>
              first
              | linarith
              | simp_all))

/-- Witness for C3 on a concrete over-time final clip: truncated to 930 s,
within the remaining 1000 s. -/
theorem C3_truncation_cap_witness :
    (0:ℚ) ≤ cfgMain.buffer_len ∧ (0:ℚ) ≤ cfgMain.buffer_tol ∧
    isLiveSrc cfgMain "x.mp4" = false ∧
    envOver.fileExists "x.mp4" = true ∧
    refTime cfgMain < tdOf cfgMain envOver 0 3600 ∧
    gen_input cfgMain envOver "x.mp4" 90000 3600 0 3600 false =
      .ok (some ⟨some (SrcCmd.seekCut "x.mp4" 3600 0 930), some 0, []⟩) ∧
    cmdSpan (SrcCmd.seekCut "x.mp4" 3600 0 930) ≤
      refTime cfgMain - genTime cfgMain envOver := by
  have hgen : gen_input cfgMain envOver "x.mp4" 90000 3600 0 3600 false =
      .ok (some ⟨some (SrcCmd.seekCut "x.mp4" 3600 0 930), some 0, []⟩) := by
    norm_num [gen_input, src_or_dummy, sodMap, tdOf, genTime, refTime,
      dayStartSec, newLenOver, envOver, envBase, cfgMain]
    rfl
  refine ⟨by norm_num [cfgMain], by norm_num [cfgMain], by decide, by decide,
    by norm_num [tdOf, refTime, genTime, dayStartSec, envOver, envBase,
      cfgMain], hgen, ?_⟩
  exact C3_truncation_cap cfgMain envOver "x.mp4" 90000 3600 0 3600 false
    ⟨some (SrcCmd.seekCut "x.mp4" 3600 0 930), some 0, []⟩
    (SrcCmd.seekCut "x.mp4" 3600 0 930)
    (by norm_num [cfgMain]) (by norm_num [cfgMain]) (by norm_num)
    (by decide) (by decide)
    (Or.inr (Or.inl (by norm_num)))
    hgen rfl

/-! ### C4 — the last-clip branch -/

/-- A `gen_input` result built by `sodMap` carries exactly the `time_left`
value attached there. -/
theorem sodMap_timeLeft (r : Except Err (SrcCmd × List Note)) (tl : Option ℚ)
    (extra : List Note) (g : GenOut) (h : sodMap r tl extra = .ok (some g)) :
    g.timeLeft = tl := by
  cases r with
  | error e => simp [sodMap] at h
  | ok p =>
    cases p
    simp only [sodMap, Except.ok.injEq, Option.some.injEq] at h
    rw [← h]

/-- An environment where only `a.mp4` exists (clock at `22000` s). -/
def envHasA : Env := { envBase with fileExists := fun f => f == "a.mp4" }

/-- Claim C4 counterexample: at exactly `time_diff = ref` (here
`buffer_length + tolerance + (out − seek) + now = 108000 = ref`) with
`last = true`, no branch of `gen_input` fires and the source returns the
bare `None` — which the caller then fails to unpack — instead of the
claimed recomputation and `time_left = new_len − duration`. -/
theorem C4_counterexample :
    gen_input cfgMain envLate "a.mp4" 21600 50 0 7930 true = .ok none := by
  norm_num [gen_input, tdOf, td2Of, newLenLast, newLenOver, genTime, refTime,
    dayStartSec, envLate, envBase, cfgMain]

/-- Claim C4, amended: the last-clip recomputation happens only under the
*strict* inequality `time_diff < ref` (at equality `gen_input` returns
`None`, see the counterexample). Under it, for an existing non-live source:
`time_left = new_len − duration`, positive exactly when
`time_diff' < ref`; `new_len < duration` renders `[0, new_len]`
(end-anchored for the filler clip) with no notification; `new_len >
duration` renders the full duration and notifies "not long enough"; and at
`new_len = duration` the full duration is rendered *without* the
notification (the truncation branch, not the notify branch, handles the
boundary). -/
theorem C4_last_clip (cfg : Config) (env : Env) (src : String)
    (begin dur seek out : ℚ)
    (htd : tdOf cfg env seek out < refTime cfg)
    (hlive : isLiveSrc cfg src = false) (hex : env.fileExists src = true) :
    ∃ g, gen_input cfg env src begin dur seek out true = .ok (some g) ∧
      g.timeLeft = some (newLenLast cfg env dur - dur) ∧
      (0 < newLenLast cfg env dur - dur ↔
        td2Of cfg env dur < refTime cfg) ∧
      (newLenLast cfg env dur < dur → src ≠ cfg.filler →
        g.cmd = some (.seekCut src dur 0 (newLenLast cfg env dur)) ∧
        g.notes = []) ∧
      (newLenLast cfg env dur < dur → src = cfg.filler →
        g.cmd = some (.seekCut src dur (dur - newLenLast cfg env dur) dur) ∧
        g.notes = []) ∧
      (dur < newLenLast cfg env dur →
        g.cmd = some (.straight src dur) ∧
        g.notes = [.notLongEnough (newLenLast cfg env dur)]) ∧
      (newLenLast cfg env dur = dur →
        g.cmd = some (.straight src dur) ∧ g.notes = []) := by
  have hsod : ∀ (d a b : ℚ) (dl : Option ℚ),
      src_or_dummy cfg env src d a b dl =
        if a > 0 ∨ b < d then .ok (.seekCut src d a b, [])
        else .ok (.straight src d, []) :=
    fun d a b dl => src_or_dummy_exists_eq cfg env src d a b dl hlive hex
  have key : newLenLast cfg env dur - dur =
      refTime cfg - td2Of cfg env dur := by
    unfold newLenLast
    ring
  rcases lt_trichotomy (newLenLast cfg env dur) dur with hlt | heq | hgt
  · have h4 : td2Of cfg env dur ≥ refTime cfg := by linarith
    by_cases hf : src = cfg.filler
    · have hseek : dur - newLenLast cfg env dur > 0 := by linarith
      refine ⟨⟨some (.seekCut src dur (dur - newLenLast cfg env dur) dur),
        some (newLenLast cfg env dur - dur), []⟩, ?_, rfl, ?_, ?_, ?_, ?_, ?_⟩
      · simp only [gen_input]
        rw [if_neg (by simp), if_pos ⟨htd, trivial⟩, if_pos h4, if_pos hf,
          hsod, if_pos (Or.inl hseek)]
        rfl
      · constructor <;> intro h <;> linarith
      · intro _ hnf
        exact absurd hf hnf
      · intro _ _
        exact ⟨rfl, rfl⟩
      · intro h
        exact absurd h (by linarith)
      · intro h
        exact absurd h (by linarith)
    · refine ⟨⟨some (.seekCut src dur 0 (newLenLast cfg env dur)),
        some (newLenLast cfg env dur - dur), []⟩, ?_, rfl, ?_, ?_, ?_, ?_, ?_⟩
      · simp only [gen_input]
        rw [if_neg (by simp), if_pos ⟨htd, trivial⟩, if_pos h4, if_neg hf,
          hsod, if_pos (Or.inr hlt)]
        rfl
      · constructor <;> intro h <;> linarith
      · intro _ _
        exact ⟨rfl, rfl⟩
      · intro _ hf2
        exact absurd hf2 hf
      · intro h
        exact absurd h (by linarith)
      · intro h
        exact absurd h (by linarith)
  · have h4 : td2Of cfg env dur ≥ refTime cfg := by linarith
    by_cases hf : src = cfg.filler
    · refine ⟨⟨some (.straight src dur),
        some (newLenLast cfg env dur - dur), []⟩, ?_, rfl, ?_, ?_, ?_, ?_, ?_⟩
      · simp only [gen_input]
        rw [if_neg (by simp), if_pos ⟨htd, trivial⟩, if_pos h4, if_pos hf,
          hsod, if_neg (by rintro (h | h) <;> linarith)]
        rfl
      · constructor <;> intro h <;> linarith
      · intro h _
        exact absurd h (by linarith)
      · intro h _
        exact absurd h (by linarith)
      · intro h
        exact absurd h (by linarith)
      · intro _
        exact ⟨rfl, rfl⟩
    · refine ⟨⟨some (.straight src dur),
        some (newLenLast cfg env dur - dur), []⟩, ?_, rfl, ?_, ?_, ?_, ?_, ?_⟩
      · simp only [gen_input]
        rw [if_neg (by simp), if_pos ⟨htd, trivial⟩, if_pos h4, if_neg hf,
          hsod, if_neg (by rintro (h | h) <;> linarith)]
        rfl
      · constructor <;> intro h <;> linarith
      · intro h _
        exact absurd h (by linarith)
      · intro h _
        exact absurd h (by linarith)
      · intro h
        exact absurd h (by linarith)
      · intro _
        exact ⟨rfl, rfl⟩
  · have h4 : ¬(td2Of cfg env dur ≥ refTime cfg) := by
      apply not_le.mpr
      linarith
    refine ⟨⟨some (.straight src dur), some (newLenLast cfg env dur - dur),
      [.notLongEnough (newLenLast cfg env dur)]⟩, ?_, rfl, ?_, ?_, ?_, ?_, ?_⟩
    · simp only [gen_input]
      rw [if_neg (by simp), if_pos ⟨htd, trivial⟩, if_neg h4,
        hsod, if_neg (by rintro (h | h) <;> linarith)]
      rfl
    · constructor <;> intro h <;> linarith
    · intro h _
      exact absurd h (by linarith)
    · intro h _
      exact absurd h (by linarith)
    · intro _
      exact ⟨rfl, rfl⟩
    · intro h
      exact absurd h (by linarith)

/-- Witness for C4: a 10 s final clip early in the day — the playlist is
far too short, the clip renders in full with the "not long enough"
notification and `time_left = 85920 > 0`. -/
theorem C4_last_clip_witness :
    tdOf cfgMain envHasA 0 10 < refTime cfgMain ∧
    isLiveSrc cfgMain "a.mp4" = false ∧
    envHasA.fileExists "a.mp4" = true ∧
    (∃ g, gen_input cfgMain envHasA "a.mp4" 21600 10 0 10 true =
        .ok (some g) ∧
      g.timeLeft = some (newLenLast cfgMain envHasA 10 - 10) ∧
      (0 < newLenLast cfgMain envHasA 10 - 10 ↔
        td2Of cfgMain envHasA 10 < refTime cfgMain) ∧
      (newLenLast cfgMain envHasA 10 < 10 → "a.mp4" ≠ cfgMain.filler →
        g.cmd = some (.seekCut "a.mp4" 10 0 (newLenLast cfgMain envHasA 10)) ∧
        g.notes = []) ∧
      (newLenLast cfgMain envHasA 10 < 10 → "a.mp4" = cfgMain.filler →
        g.cmd = some (.seekCut "a.mp4" 10 (10 - newLenLast cfgMain envHasA 10)
          10) ∧ g.notes = []) ∧
      (10 < newLenLast cfgMain envHasA 10 →
        g.cmd = some (.straight "a.mp4" 10) ∧
        g.notes = [.notLongEnough (newLenLast cfgMain envHasA 10)]) ∧
      (newLenLast cfgMain envHasA 10 = 10 →
        g.cmd = some (.straight "a.mp4" 10) ∧ g.notes = [])) :=
  ⟨by norm_num [tdOf, genTime, refTime, dayStartSec, envHasA, envBase,
      cfgMain],
    by decide, by decide,
    C4_last_clip cfgMain envHasA "a.mp4" 21600 10 0 10
      (by norm_num [tdOf, genTime, refTime, dayStartSec, envHasA, envBase,
        cfgMain])
      (by decide) (by decide)⟩

/-! ### C5 — the over-time branch -/

/-- Claim C5: when `time_diff > ref` and the first branch does not apply
(`begin ≥ 86400` or the clip is final), `gen_input` is exactly the
over-time policy: with `new_len = (out − seek) − (time_diff − ref)`, a
truncated render for `new_len > 5` (end-anchored for the filler clip,
`[seek, new_len]` otherwise), a dummy of `new_len` for `1 < new_len ≤ 5`,
nothing for `new_len ≤ 1`; and every emitted result carries
`time_left = 0`. -/
theorem C5_overtime_branch (cfg : Config) (env : Env) (src : String)
    (begin dur seek out : ℚ) (last : Bool)
    (h1 : refTime cfg < tdOf cfg env seek out)
    (h2 : 86400 ≤ begin ∨ last = true) :
    (gen_input cfg env src begin dur seek out last =
      if newLenOver cfg env seek out > 5 then
        if src = cfg.filler then
          sodMap (src_or_dummy cfg env src dur
            (out - newLenOver cfg env seek out) out none) (some 0) []
        else
          sodMap (src_or_dummy cfg env src dur seek
            (newLenOver cfg env seek out) none) (some 0) []
      else if newLenOver cfg env seek out > 1 then
        .ok (some ⟨some (gen_dummy (newLenOver cfg env seek out)),
          some 0, []⟩)
      else
        .ok (some ⟨none, some 0, []⟩)) ∧
    (∀ g, gen_input cfg env src begin dur seek out last = .ok (some g) →
      g.timeLeft = some 0) := by
  have hb1 : ¬((tdOf cfg env seek out ≤ refTime cfg ∨ begin < 86400) ∧
      ¬(last = true)) := by
    rintro ⟨hor, hnl⟩
    rcases hor with h | h
    · linarith
    · rcases h2 with h2 | h2
      · linarith
      · exact hnl h2
  have hb2 : ¬(tdOf cfg env seek out < refTime cfg ∧ last = true) := by
    rintro ⟨hlt, _⟩
    linarith
  have he : gen_input cfg env src begin dur seek out last =
      if newLenOver cfg env seek out > 5 then
        if src = cfg.filler then
          sodMap (src_or_dummy cfg env src dur
            (out - newLenOver cfg env seek out) out none) (some 0) []
        else
          sodMap (src_or_dummy cfg env src dur seek
            (newLenOver cfg env seek out) none) (some 0) []
      else if newLenOver cfg env seek out > 1 then
        .ok (some ⟨some (gen_dummy (newLenOver cfg env seek out)),
          some 0, []⟩)
      else
        .ok (some ⟨none, some 0, []⟩) := by
    simp only [gen_input]
    rw [if_neg hb1, if_neg hb2, if_pos h1]
  refine ⟨he, ?_⟩
  intro g hgev
  rw [he] at hgev
  split_ifs at hgev with ha hf hbb
  · exact sodMap_timeLeft _ _ _ _ hgev
  · exact sodMap_timeLeft _ _ _ _ hgev
  · simp only [Except.ok.injEq, Option.some.injEq] at hgev
    rw [← hgev]
  · simp only [Except.ok.injEq, Option.some.injEq] at hgev
    rw [← hgev]

/-- Witness for C5: final over-time clip at 05:43:20 (frame time 107000),
truncated to `new_len = 930 > 5`. -/
theorem C5_overtime_branch_witness :
    refTime cfgMain < tdOf cfgMain envOver 0 3600 ∧
    ((gen_input cfgMain envOver "x.mp4" 90000 3600 0 3600 false =
      if newLenOver cfgMain envOver 0 3600 > 5 then
        if "x.mp4" = cfgMain.filler then
          sodMap (src_or_dummy cfgMain envOver "x.mp4" 3600
            (3600 - newLenOver cfgMain envOver 0 3600) 3600 none)
            (some 0) []
        else
          sodMap (src_or_dummy cfgMain envOver "x.mp4" 3600 0
            (newLenOver cfgMain envOver 0 3600) none) (some 0) []
      else if newLenOver cfgMain envOver 0 3600 > 1 then
        .ok (some ⟨some (gen_dummy (newLenOver cfgMain envOver 0 3600)),
          some 0, []⟩)
      else
        .ok (some ⟨none, some 0, []⟩)) ∧
    (∀ g, gen_input cfgMain envOver "x.mp4" 90000 3600 0 3600 false =
        .ok (some g) → g.timeLeft = some 0)) :=
  ⟨by norm_num [tdOf, genTime, refTime, dayStartSec, envOver, envBase,
      cfgMain],
    C5_overtime_branch cfgMain envOver "x.mp4" 90000 3600 0 3600 false
      (by norm_num [tdOf, genTime, refTime, dayStartSec, envOver, envBase,
        cfgMain])
      (Or.inl (by norm_num))⟩

/-! ### C9 — the S1 happy-path scenario -/

/-- The S1 playlist: `begin = 06:00:00`, one node
`{source: "a.mp4", in: 0, out: 3600, duration: 3600}`. -/
def plS1 : PlaylistJson :=
  { beginField := some (some 21600)
    hasLength := false
    program := [⟨"a.mp4", some 0, some 3600, some 3600⟩] }

/-- S1 environment at wall time 05:59:55 on day 15 (standing for
2024-01-15): only day 15's playlist exists on disk. -/
def envS1a : Env :=
  { envBase with
    now := 21595
    hour := 5
    today := 15
    fs := fun d => if d = 15 then .present 1 (some plS1) else .missing
    fileExists := fun f => f == "a.mp4" }

/-- The same environment at wall time 06:00:00. -/
def envS1b : Env := { envS1a with now := 21600, hour := 6 }

/-- Claim C9 counterexample: at 05:59:55 the broadcast date is still day 14
(`get_date` seeks back before `day_start`), whose playlist file does not
exist, so the first emission is a 60 s dummy with a `Playlist not exist`
notification — not a render of `a.mp4`. -/
theorem C9_counterexample :
    passCmdOf (nextPass cfgMain envS1a (initState cfgMain envS1a)) =
      some (some (SrcCmd.dummy 60)) ∧
    SrcCmd.dummy 60 ≠ SrcCmd.straight "a.mp4" 3600 := by
  constructor
  · norm_num [passCmdOf, nextPass, get_playlist, initState, get_date,
      error_handling, gen_dummy, wrapDay, dayStartSec, envS1a, envBase,
      cfgMain]
  · simp

/-- Claim C9, amended: at 05:59:55 the first emission is the fallback dummy
(see the counterexample); a process starting at 06:00:00 instead produces,
as its first emission, a full render of `a.mp4` — no seek, playable span
3600. -/
theorem C9_amended_happy_path :
    passCmdOf (nextPass cfgMain envS1b (initState cfgMain envS1b)) =
      some (some (SrcCmd.straight "a.mp4" 3600)) ∧
    cmdSpan (SrcCmd.straight "a.mp4" 3600) = 3600 := by
  constructor
  · norm_num [passCmdOf, nextPass, get_playlist, initState, get_date,
      check_last_item, walkNodes, gen_input, src_or_dummy, sodMap, srcOf,
      seekOf, outOf, durOf, gen_dummy, pyTruthyQ, lastTimeTruthy,
      hasLavfiElem, wrapDay, tdOf, genTime, refTime, dayStartSec, plS1,
      envS1b, envS1a, envBase, cfgMain]
    rfl
  · rfl

/-! ### C10 — copy-mode dummies never enter the resync state -/

/-- Claim C10: a copy-mode dummy's vector `['-i', blackclip]` has no
`'lavfi'` element (for any blackclip path other than the literal string
`lavfi`), so `check_last_item` takes its final branch after such a dummy,
returning `first = false` with `last_time` untouched; and `first = true` is
only ever returned for a `None` emission or a command whose vector contains
`'lavfi'`. -/
theorem C10_copy_dummy_no_resync (cfg : Config) (env : Env) (d : ℚ)
    (lt : Option ℚ) (last : Bool)
    (hcopy : cfg.copy = true) (hbc : cfg.blackclip ≠ "lavfi") :
    hasLavfiElem cfg (gen_dummy d) = false ∧
    check_last_item cfg env (some (gen_dummy d)) lt last = .ok (false, lt) ∧
    (∀ c lt' r, check_last_item cfg env (some c) lt' false = .ok (true, r) →
      hasLavfiElem cfg c = true) := by
  have hb2 : (cfg.blackclip == "lavfi") = false := beq_eq_false_iff_ne.mpr hbc
  refine ⟨?_, ?_, ?_⟩
  · simp [hasLavfiElem, gen_dummy, hcopy, hb2]
  · simp [check_last_item, hasLavfiElem, gen_dummy, hcopy, hb2]
  · intro c lt' r h
    by_cases hl : hasLavfiElem cfg c = true
    · exact hl
    · exfalso
      simp [check_last_item, hl] at h

/-- Witness for C10 with the copy-mode configuration. -/
theorem C10_copy_dummy_no_resync_witness :
    cfgCopy.copy = true ∧ cfgCopy.blackclip ≠ "lavfi" ∧
    (hasLavfiElem cfgCopy (gen_dummy 60) = false ∧
    check_last_item cfgCopy envBase (some (gen_dummy 60)) (some 7) true =
      .ok (false, some 7) ∧
    (∀ c lt' r,
      check_last_item cfgCopy envBase (some c) lt' false = .ok (true, r) →
      hasLavfiElem cfgCopy c = true)) :=
  ⟨by decide, by decide,
    C10_copy_dummy_no_resync cfgCopy envBase 60 (some 7) true
      (by decide) (by decide)⟩

end FFPlayout
